import Mathlib

/-!
Verification development for the QuickTune room-correction engine
(src/quicktune/quicktune.cpp, eq10.cpp, quicktune_config.h).

Shallow embedding conventions:
* C `float` arithmetic is embedded as exact real arithmetic over `ℝ`
  (the ideal values the code computes; rounding of IEEE-754 operations
  is not modelled).  Where a claim is decided by exact integer/rational
  values that the `float` pipeline also computes exactly (small integers
  and halves), a parallel `ℚ` model is used so the fact is decidable.
* The C translation unit's `static` globals form one record; every
  function of the source becomes a pure function on that record.
* C `int` band indices are embedded as `ℤ` where the source range-checks
  them, otherwise as `ℕ`; `uint32_t` counters as `ℕ`.
* NULL-able pointer arguments become `Option`.
-/

set_option maxHeartbeats 1000000

/- ===================== quicktune_config.h ===================== -/

def QUICKTUNE_SAMPLE_RATE : ℕ := 48000

def QUICKTUNE_BLOCK_SIZE : ℕ := 32

def QUICKTUNE_NUM_BANDS : ℕ := 10

def QUICKTUNE_TONE_SETTLING_SAMPLES : ℕ := 9600

def QUICKTUNE_TONE_ANALYSIS_SAMPLES : ℕ := 4800

def QUICKTUNE_TONE_TOTAL_SAMPLES : ℕ := 14400

/-- EQ10 band center frequencies (Hz), `QUICKTUNE_BAND_FREQUENCIES`. -/
noncomputable def QUICKTUNE_BAND_FREQUENCIES : ℕ → ℝ
  | 0 => 25
  | 1 => 40
  | 2 => 63
  | 3 => 100
  | 4 => 160
  | 5 => 250
  | 6 => 400
  | 7 => 630
  | 8 => 1000
  | 9 => 1600
  | _ => 0

/-- MEMS microphone calibration offsets (dB), `QUICKTUNE_MEMS_CALIBRATION`. -/
noncomputable def QUICKTUNE_MEMS_CALIBRATION : ℕ → ℝ
  | 0 => 3
  | 1 => 3/2
  | _ => 0

noncomputable def QUICKTUNE_MAX_GAIN_DB : ℝ := 12

noncomputable def QUICKTUNE_MIN_GAIN_DB : ℝ := -12

noncomputable def QUICKTUNE_EQ_Q : ℝ := 2

def QUICKTUNE_MAX_ITERATIONS : ℕ := 3

noncomputable def QUICKTUNE_DAMPING_FACTOR : ℝ := 7/10

def QUICKTUNE_ENABLE_ITERATION : Bool := true

noncomputable def QUICKTUNE_TONE_AMPLITUDE : ℝ := 1/2

def QUICKTUNE_FADE_SAMPLES : ℕ := 480

/- ===================== eq10.cpp ===================== -/

/-- The `static` globals of eq10.cpp: coefficient array (5 per band),
biquad delay-line state, and the initialization flag.  The CMSIS-DSP
instance only aliases these arrays and is not modelled separately. -/
structure EQ10State where
  coeffs : ℕ → Fin 5 → ℝ
  biquadState : ℕ → ℝ
  initialized : Bool

/-- `EQ10_DesignBiquad`: RBJ peaking-EQ biquad design, normalized by `a0`.
Output components are `[b0/a0, b1/a0, b2/a0, a1/a0, a2/a0]`. -/
noncomputable def EQ10_DesignBiquad (fc gain_dB Q fs : ℝ) : Fin 5 → ℝ :=
  let A : ℝ := (10 : ℝ) ^ (gain_dB / 40)
  let w0 : ℝ := 2 * Real.pi * fc / fs
  let sin_w0 : ℝ := Real.sin w0
  let cos_w0 : ℝ := Real.cos w0
  let alpha : ℝ := sin_w0 / (2 * Q)
  let b0 : ℝ := 1 + alpha * A
  let b1 : ℝ := -2 * cos_w0
  let b2 : ℝ := 1 - alpha * A
  let a0 : ℝ := 1 + alpha / A
  let a1 : ℝ := -2 * cos_w0
  let a2 : ℝ := 1 - alpha / A
  ![b0 / a0, b1 / a0, b2 / a0, a1 / a0, a2 / a0]

/-- Gain clipping as written in eq10.cpp / quicktune.cpp:
first cap at `QUICKTUNE_MAX_GAIN_DB`, then at `QUICKTUNE_MIN_GAIN_DB`. -/
noncomputable def clampGainDb (gain : ℝ) : ℝ :=
  let g1 := if QUICKTUNE_MAX_GAIN_DB < gain then QUICKTUNE_MAX_GAIN_DB else gain
  if g1 < QUICKTUNE_MIN_GAIN_DB then QUICKTUNE_MIN_GAIN_DB else g1

/-- Q clipping as written in eq10.cpp: raise to 0.1, then cap at 20. -/
noncomputable def clampQ (Q : ℝ) : ℝ :=
  let q1 := if Q < 1/10 then (1/10 : ℝ) else Q
  if (20 : ℝ) < q1 then 20 else q1

/-- `EQ10_IsValidBand` (band is a C `int`). -/
def EQ10_IsValidBand (band : ℤ) : Prop :=
  0 ≤ band ∧ band < (QUICKTUNE_NUM_BANDS : ℤ)

instance (band : ℤ) : Decidable (EQ10_IsValidBand band) := by
  unfold EQ10_IsValidBand; infer_instance

/-- `EQ10_Init`: design all 10 bands at 0 dB / default Q, clear delay lines,
set the initialized flag.  (Bands outside 0..9 do not exist in the C array;
they keep the zero value of the static allocation.) -/
noncomputable def EQ10_Init : EQ10State :=
  { coeffs := fun band =>
      if band < QUICKTUNE_NUM_BANDS then
        EQ10_DesignBiquad (QUICKTUNE_BAND_FREQUENCIES band) 0 QUICKTUNE_EQ_Q
          (QUICKTUNE_SAMPLE_RATE : ℝ)
      else fun _ => 0,
    biquadState := fun _ => 0,
    initialized := true }

/-- `EQ10_SetBandGain`. -/
noncomputable def EQ10_SetBandGain (eq : EQ10State) (band : ℤ) (gain_dB Q : ℝ) :
    Bool × EQ10State :=
  if ¬(eq.initialized = true) ∨ ¬EQ10_IsValidBand band then (false, eq)
  else
    let g := clampGainDb gain_dB
    let q := clampQ Q
    let newCoeffs := EQ10_DesignBiquad (QUICKTUNE_BAND_FREQUENCIES band.toNat) g q
      (QUICKTUNE_SAMPLE_RATE : ℝ)
    (true, { eq with coeffs := Function.update eq.coeffs band.toNat newCoeffs })

/-- `EQ10_SetAllGains` (`gains_dB == NULL` modelled as `none`). -/
noncomputable def EQ10_SetAllGains (eq : EQ10State) (gains_dB : Option (ℕ → ℝ))
    (Q : ℝ) : Bool × EQ10State :=
  match gains_dB with
  | none => (false, eq)
  | some gains =>
    if ¬(eq.initialized = true) then (false, eq)
    else
      let q := clampQ Q
      let newCoeffs : ℕ → Fin 5 → ℝ := fun band =>
        if band < QUICKTUNE_NUM_BANDS then
          EQ10_DesignBiquad (QUICKTUNE_BAND_FREQUENCIES band)
            (clampGainDb (gains band)) q (QUICKTUNE_SAMPLE_RATE : ℝ)
        else eq.coeffs band
      (true, { eq with coeffs := newCoeffs })

/-- `EQ10_GetCoefficients`: export of the 50-value coefficient set
(per band, 5 coefficients). -/
def EQ10_GetCoefficients (eq : EQ10State) : ℕ → Fin 5 → ℝ :=
  eq.coeffs

/-- `EQ10_GetBandFrequency`. -/
noncomputable def EQ10_GetBandFrequency (band : ℤ) : ℝ :=
  if ¬EQ10_IsValidBand band then 0
  else QUICKTUNE_BAND_FREQUENCIES band.toNat

/- ===================== quicktune.cpp ===================== -/

/-- `QuickTuneState` enum from quicktune.h. -/
inductive QuickTuneState where
  | idle
  | measuring
  | computing
  | applying
  | done
  | error
deriving DecidableEq

/-- The `static` globals of quicktune.cpp (the `s_goertzel_coeffs` array
precomputed by `QuickTune_Init` is dead state: it is written once and
never read by any other function, so it is not carried here). -/
structure QTState where
  state : QuickTuneState
  current_band : ℕ
  sample_counter : ℕ
  iteration : ℕ
  last_error : ℤ
  osc_y1 : ℝ
  osc_y2 : ℝ
  osc_coeff : ℝ
  tone_amplitude : ℝ
  goertzel_s1 : ℝ
  goertzel_s2 : ℝ
  goertzel_coeff : ℝ
  measured_levels : ℕ → ℝ
  correction_gains : ℕ → ℝ
  cumulative_gains : ℕ → ℝ
  eq10 : EQ10State

/-- `ToneGenerator_Init`: set `2·cos(w0)` and the phase state. -/
noncomputable def ToneGenerator_Init (frequency : ℝ) (s : QTState) : QTState :=
  let w0 : ℝ := 2 * Real.pi * frequency / (QUICKTUNE_SAMPLE_RATE : ℝ)
  { s with
    osc_coeff := 2 * Real.cos w0,
    osc_y1 := -Real.sin w0,
    osc_y2 := -Real.sin (2 * w0),
    tone_amplitude := QUICKTUNE_TONE_AMPLITUDE }

/-- `ToneGenerator_GetSample`: one oscillator update plus the fade
envelope; returns the updated state and the produced sample. -/
noncomputable def ToneGenerator_GetSample (sample_index : ℕ) (s : QTState) :
    QTState × ℝ :=
  let y0 : ℝ := s.osc_coeff * s.osc_y1 - s.osc_y2
  let s1 := { s with osc_y2 := s.osc_y1, osc_y1 := y0 }
  let amplitude : ℝ :=
    if sample_index < QUICKTUNE_FADE_SAMPLES then
      s.tone_amplitude * ((sample_index : ℝ) / (QUICKTUNE_FADE_SAMPLES : ℝ))
    else if QUICKTUNE_TONE_TOTAL_SAMPLES - QUICKTUNE_FADE_SAMPLES ≤ sample_index then
      s.tone_amplitude *
        (((QUICKTUNE_TONE_TOTAL_SAMPLES - sample_index : ℕ) : ℝ) /
          (QUICKTUNE_FADE_SAMPLES : ℝ))
    else s.tone_amplitude
  (s1, y0 * amplitude)

/-- `Goertzel_Init`.  NOTE (faithful to the source): the bin index is
computed as the float value `N·f/fs + 0.5` and is used directly in `w`;
the source never truncates it to an integer, although its comment says
`k = round(N * f / fs)`. -/
noncomputable def Goertzel_Init (frequency : ℝ) (num_samples : ℕ) (s : QTState) :
    QTState :=
  let k : ℝ := (num_samples : ℝ) * frequency / (QUICKTUNE_SAMPLE_RATE : ℝ) + 1/2
  let w : ℝ := (2 * Real.pi * k) / (num_samples : ℝ)
  { s with goertzel_coeff := 2 * Real.cos w, goertzel_s1 := 0, goertzel_s2 := 0 }

/-- `Goertzel_ProcessSample`. -/
noncomputable def Goertzel_ProcessSample (sample : ℝ) (s : QTState) : QTState :=
  { s with
    goertzel_s1 := s.goertzel_coeff * s.goertzel_s1 - s.goertzel_s2 + sample,
    goertzel_s2 := s.goertzel_s1 }

/-- `Goertzel_GetPower`: final power, magnitude, dB conversion with the
−120 dB floor. -/
noncomputable def Goertzel_GetPower (num_samples : ℕ) (s : QTState) : ℝ :=
  let «power» : ℝ := s.goertzel_s1 * s.goertzel_s1 + s.goertzel_s2 * s.goertzel_s2 -
    s.goertzel_coeff * s.goertzel_s1 * s.goertzel_s2
  let magnitude : ℝ := Real.sqrt (2 * «power») / (num_samples : ℝ)
  if 1/1000000000 < magnitude then 20 * Real.logb 10 magnitude else -120

/-- `StartBandMeasurement`. -/
noncomputable def StartBandMeasurement (s : QTState) : QTState :=
  if QUICKTUNE_NUM_BANDS ≤ s.current_band then
    { s with state := .computing }
  else
    let frequency := QUICKTUNE_BAND_FREQUENCIES s.current_band
    let s1 := ToneGenerator_Init frequency s
    let s2 := Goertzel_Init frequency QUICKTUNE_TONE_ANALYSIS_SAMPLES s1
    { s2 with sample_counter := 0 }

/-- `ComputeCorrectionGains`: per band, correction = clamp(−measured);
iteration 0 sets the cumulative gain to the correction, later iterations
add `correction × damping` and re-clamp.  Then transition to Applying. -/
noncomputable def ComputeCorrectionGains (s : QTState) : QTState :=
  let gain : ℕ → ℝ := fun band => clampGainDb (-(s.measured_levels band))
  { s with
    correction_gains := fun band =>
      if band < QUICKTUNE_NUM_BANDS then gain band else s.correction_gains band,
    cumulative_gains := fun band =>
      if band < QUICKTUNE_NUM_BANDS then
        if s.iteration = 0 then gain band
        else clampGainDb (s.cumulative_gains band + gain band * QUICKTUNE_DAMPING_FACTOR)
      else s.cumulative_gains band,
    state := .applying }

/-- `ApplyCorrectionGains`.  The `#if QUICKTUNE_ENABLE_ITERATION` block and
`QUICKTUNE_MAX_ITERATIONS` are kept as parameters so the claim about both
outcomes can be stated; the shipped configuration is `(true, 3)`. -/
noncomputable def ApplyCorrectionGains (enableIteration : Bool)
    (maxIterations : ℕ) (s : QTState) : QTState :=
  let s1 := { s with
    eq10 := (EQ10_SetAllGains s.eq10 (some s.cumulative_gains) QUICKTUNE_EQ_Q).2 }
  if enableIteration = true ∧ s1.iteration < maxIterations - 1 then
    StartBandMeasurement
      { s1 with iteration := s1.iteration + 1, current_band := 0, state := .measuring }
  else
    { s1 with state := .done }

/-- `QuickTune_Init`. -/
noncomputable def QuickTune_Init : QTState :=
  { state := .idle,
    current_band := 0,
    sample_counter := 0,
    iteration := 0,
    last_error := 0,
    osc_y1 := 0, osc_y2 := 0, osc_coeff := 0, tone_amplitude := 0,
    goertzel_s1 := 0, goertzel_s2 := 0, goertzel_coeff := 0,
    measured_levels := fun _ => 0,
    correction_gains := fun _ => 0,
    cumulative_gains := fun _ => 0,
    eq10 := EQ10_Init }

/-- `QuickTune_Start`. -/
noncomputable def QuickTune_Start (s : QTState) : Bool × QTState :=
  if s.state ≠ .idle then
    (false, { s with last_error := 1 })
  else
    let s1 := { s with iteration := 0, current_band := 0, state := .measuring }
    (true, StartBandMeasurement s1)

/-- The per-sample state update of the Measuring loop body of
`QuickTune_ProcessBlock` (lines 396–406): generate a tone sample (the
oscillator state advances), feed the microphone sample to the Goertzel
filter when inside the analysis window, increment the sample counter. -/
noncomputable def measureSampleStep (micInput : ℕ → ℝ) (i : ℕ) (s : QTState) :
    QTState :=
  let s1 := (ToneGenerator_GetSample s.sample_counter s).1
  let s2 :=
    if QUICKTUNE_TONE_SETTLING_SAMPLES ≤ s1.sample_counter ∧
       s1.sample_counter < QUICKTUNE_TONE_SETTLING_SAMPLES + QUICKTUNE_TONE_ANALYSIS_SAMPLES
    then Goertzel_ProcessSample (micInput i) s1
    else s1
  { s2 with sample_counter := s2.sample_counter + 1 }

/-- Tone-completion finalization of the Measuring loop (lines 409–422):
finalize detection, add the MEMS calibration offset for the current band,
store the measured level, advance to the next band. -/
noncomputable def finishBand (s3 : QTState) : QTState :=
  let level_db := Goertzel_GetPower QUICKTUNE_TONE_ANALYSIS_SAMPLES s3 +
    QUICKTUNE_MEMS_CALIBRATION s3.current_band
  let s4 := { s3 with
    measured_levels := Function.update s3.measured_levels s3.current_band level_db }
  StartBandMeasurement { s4 with current_band := s4.current_band + 1 }

/-- The per-sample loop of `QuickTune_ProcessBlock` in the Measuring state
(lines 394–432): on tone completion the rest of the block is zero-filled
and the loop returns early.  `n` counts the remaining samples, `i` is the
in-block index. -/
noncomputable def QuickTune_MeasureLoop (micInput : ℕ → ℝ) :
    ℕ → ℕ → QTState → QTState × List ℝ
  | 0, _, s => (s, [])
  | n + 1, i, s =>
    let out := (ToneGenerator_GetSample s.sample_counter s).2
    let s3 := measureSampleStep micInput i s
    if QUICKTUNE_TONE_TOTAL_SAMPLES ≤ s3.sample_counter then
      (finishBand s3, out :: List.replicate n 0)
    else
      let r := QuickTune_MeasureLoop micInput n (i + 1) s3
      (r.1, out :: r.2)

/-- `QuickTune_ProcessBlock`: state dispatch; Idle/Done/Error output
silence, Computing and Applying run their one-shot steps and output
silence.  Returns the new state and the speaker-output block. -/
noncomputable def QuickTune_ProcessBlock (enableIteration : Bool)
    (maxIterations : ℕ) (micInput : ℕ → ℝ) (numSamples : ℕ) (s : QTState) :
    QTState × List ℝ :=
  match s.state with
  | .idle | .done | .error => (s, List.replicate numSamples 0)
  | .measuring => QuickTune_MeasureLoop micInput numSamples 0 s
  | .computing => (ComputeCorrectionGains s, List.replicate numSamples 0)
  | .applying =>
      (ApplyCorrectionGains enableIteration maxIterations s,
        List.replicate numSamples 0)

/-- `QuickTune_GetCorrectionGains`: gated on the Done state. -/
def QuickTune_GetCorrectionGains (s : QTState) : Option (ℕ → ℝ) :=
  if s.state = .done then some s.cumulative_gains else none

/-- `QuickTune_GetMeasuredLevels`: gated on the Done state. -/
def QuickTune_GetMeasuredLevels (s : QTState) : Option (ℕ → ℝ) :=
  if s.state = .done then some s.measured_levels else none

/-- `QuickTune_Stop`. -/
def QuickTune_Stop (s : QTState) : QTState :=
  { s with state := .idle, current_band := 0, sample_counter := 0, iteration := 0 }

/-- `QuickTune_ApplyGains` (`gains == NULL` modelled as `none`; the memcpy
copies exactly the 10 band entries). -/
noncomputable def QuickTune_ApplyGains (gains : Option (ℕ → ℝ)) (s : QTState) :
    QTState :=
  match gains with
  | none => { s with last_error := 3 }
  | some g =>
    let s1 := { s with cumulative_gains := fun band =>
      if band < QUICKTUNE_NUM_BANDS then g band else s.cumulative_gains band }
    let s2 := { s1 with eq10 := (EQ10_SetAllGains s1.eq10 (some g) QUICKTUNE_EQ_Q).2 }
    { s2 with last_error := 0 }

/- ===================== harness definitions ===================== -/

/-- Feeding `ProcessBlock` repeatedly: `runBlocks e mi mic m s` is the
state after `m` calls with 32-sample blocks; `mic m` is the microphone
buffer of the `m`-th block. -/
noncomputable def runBlocks (enableIteration : Bool) (maxIterations : ℕ)
    (mic : ℕ → ℕ → ℝ) : ℕ → QTState → QTState
  | 0, s => s
  | m + 1, s =>
    (QuickTune_ProcessBlock enableIteration maxIterations (mic m)
      QUICKTUNE_BLOCK_SIZE (runBlocks enableIteration maxIterations mic m s)).1

/-- All-zero microphone input. -/
def zeroMic : ℕ → ℕ → ℝ := fun _ _ => 0

/-- The controller state right after a successful `Start()` from the
freshly initialized state. -/
noncomputable def startedState : QTState :=
  (QuickTune_Start QuickTune_Init).2

/-- A Computing-phase state with prescribed iteration counter, measured
levels and cumulative gains (all other fields as after `QuickTune_Init`). -/
noncomputable def mkComputingState (iter : ℕ) (measured cumulative : ℕ → ℝ) :
    QTState :=
  { QuickTune_Init with
    state := .computing,
    iteration := iter,
    measured_levels := measured,
    cumulative_gains := cumulative }

/-- The 10-band preset of the `ApplyGains` end-to-end scenario,
`[-2.5, -1.8, 0.5, 1.2, -0.3, -1.5, 0.8, 0.2, -0.5, 0.0]`. -/
noncomputable def presetGains : ℕ → ℝ
  | 0 => -5/2
  | 1 => -9/5
  | 2 => 1/2
  | 3 => 6/5
  | 4 => -3/10
  | 5 => -3/2
  | 6 => 4/5
  | 7 => 1/5
  | 8 => -1/2
  | _ => 0

/- ======== exact-rational model of the Goertzel bin index (C2) ======== -/

/-- The bin value `Goertzel_Init` actually computes: the float expression
`(float)num_samples * frequency / QUICKTUNE_SAMPLE_RATE + 0.5f`, kept as a
(possibly non-integer) number and substituted into `w`.  At the band
frequencies of interest the float computation is exact, so `ℚ` captures it. -/
def Goertzel_binIndex (frequency : ℚ) (num_samples : ℚ) : ℚ :=
  num_samples * frequency / 48000 + 1/2

/-- The bin index the spec (and the source's own comment) prescribe:
`k = round(N·frequency/sampleRate)`. -/
def specBinIndex (frequency : ℚ) (num_samples : ℚ) : ℤ :=
  round (num_samples * frequency / 48000)

/-- The Goertzel recurrence coefficient the code produces:
`2·cos(2π·k/N)` with the code's (untruncated) `k`. -/
noncomputable def Goertzel_coeffOf (frequency : ℚ) (num_samples : ℕ) : ℝ :=
  2 * Real.cos (2 * Real.pi * ((Goertzel_binIndex frequency num_samples : ℚ) : ℝ) /
    (num_samples : ℝ))

/-- The coefficient the spec prescribes: `2·cos(2π·round(N·f/fs)/N)`. -/
noncomputable def specGoertzelCoeff (frequency : ℚ) (num_samples : ℕ) : ℝ :=
  2 * Real.cos (2 * Real.pi * ((specBinIndex frequency num_samples : ℤ) : ℝ) /
    (num_samples : ℝ))

/- ===================== helper lemmas ===================== -/

lemma ToneGenerator_GetSample_fst (i : ℕ) (s : QTState) :
    (ToneGenerator_GetSample i s).1 =
      { s with osc_y1 := s.osc_coeff * s.osc_y1 - s.osc_y2, osc_y2 := s.osc_y1 } := rfl

lemma StartBandMeasurement_proj (s : QTState)
    (h : s.current_band < QUICKTUNE_NUM_BANDS) :
    (StartBandMeasurement s).state = s.state ∧
    (StartBandMeasurement s).current_band = s.current_band ∧
    (StartBandMeasurement s).sample_counter = 0 ∧
    (StartBandMeasurement s).iteration = s.iteration ∧
    (StartBandMeasurement s).measured_levels = s.measured_levels ∧
    (StartBandMeasurement s).goertzel_s1 = 0 ∧
    (StartBandMeasurement s).goertzel_s2 = 0 ∧
    (StartBandMeasurement s).cumulative_gains = s.cumulative_gains ∧
    (StartBandMeasurement s).correction_gains = s.correction_gains ∧
    (StartBandMeasurement s).last_error = s.last_error ∧
    (StartBandMeasurement s).eq10 = s.eq10 := by
  unfold StartBandMeasurement
  rw [if_neg (by omega)]
  exact ⟨rfl, rfl, rfl, rfl, rfl, rfl, rfl, rfl, rfl, rfl, rfl⟩

lemma StartBandMeasurement_of_ge (s : QTState)
    (h : QUICKTUNE_NUM_BANDS ≤ s.current_band) :
    StartBandMeasurement s = { s with state := .computing } := by
  unfold StartBandMeasurement
  rw [if_pos h]

lemma measureSampleStep_proj (mic : ℕ → ℝ) (i : ℕ) (s : QTState) :
    (measureSampleStep mic i s).state = s.state ∧
    (measureSampleStep mic i s).current_band = s.current_band ∧
    (measureSampleStep mic i s).sample_counter = s.sample_counter + 1 ∧
    (measureSampleStep mic i s).iteration = s.iteration ∧
    (measureSampleStep mic i s).measured_levels = s.measured_levels ∧
    (measureSampleStep mic i s).goertzel_coeff = s.goertzel_coeff ∧
    (measureSampleStep mic i s).cumulative_gains = s.cumulative_gains ∧
    (measureSampleStep mic i s).correction_gains = s.correction_gains ∧
    (measureSampleStep mic i s).last_error = s.last_error ∧
    (measureSampleStep mic i s).eq10 = s.eq10 := by
  simp only [measureSampleStep]
  split
  · exact ⟨rfl, rfl, rfl, rfl, rfl, rfl, rfl, rfl, rfl, rfl⟩
  · exact ⟨rfl, rfl, rfl, rfl, rfl, rfl, rfl, rfl, rfl, rfl⟩

lemma measureSampleStep_gzero (mic : ℕ → ℝ) (i : ℕ) (s : QTState)
    (hm : mic i = 0) (h1 : s.goertzel_s1 = 0) (h2 : s.goertzel_s2 = 0) :
    (measureSampleStep mic i s).goertzel_s1 = 0 ∧
    (measureSampleStep mic i s).goertzel_s2 = 0 := by
  simp only [measureSampleStep]
  split
  · constructor
    · show s.goertzel_coeff * s.goertzel_s1 - s.goertzel_s2 + mic i = 0
      rw [hm, h1, h2]; ring
    · exact h1
  · exact ⟨h1, h2⟩

/- ===================== C6 ===================== -/

/-- C6: `Start()` returns true iff the state is Idle; from Idle it resets
the iteration counter and band index to 0, resets the in-tone sample
counter, and transitions to Measuring; from any other state it returns
false, records error code 1 ("invalid state") and changes nothing else. -/
theorem QuickTune_Start_spec (s : QTState) :
    ((QuickTune_Start s).1 = true ↔ s.state = .idle) ∧
    (s.state = .idle →
      (QuickTune_Start s).2.state = .measuring ∧
      (QuickTune_Start s).2.current_band = 0 ∧
      (QuickTune_Start s).2.iteration = 0 ∧
      (QuickTune_Start s).2.sample_counter = 0) ∧
    (s.state ≠ .idle →
      (QuickTune_Start s).1 = false ∧
      (QuickTune_Start s).2 = { s with last_error := 1 }) := by
  by_cases h : s.state = QuickTuneState.idle
  · refine ⟨⟨fun _ => h, fun _ => ?_⟩, fun _ => ?_, fun hn => absurd h hn⟩
    · unfold QuickTune_Start
      rw [if_neg (by simp [h])]
    · unfold QuickTune_Start
      rw [if_neg (by simp [h])]
      have hp := StartBandMeasurement_proj
        { s with iteration := 0, current_band := 0, state := .measuring }
        (by simp [QUICKTUNE_NUM_BANDS])
      exact ⟨hp.1, hp.2.1, hp.2.2.2.1, hp.2.2.1⟩
  · refine ⟨⟨fun ht => ?_, fun hi => absurd hi h⟩, fun hi => absurd hi h, fun _ => ?_⟩
    · exfalso
      unfold QuickTune_Start at ht
      rw [if_pos (by simp [h])] at ht
      exact Bool.false_ne_true ht
    · unfold QuickTune_Start
      rw [if_pos (by simp [h])]
      exact ⟨rfl, rfl⟩

/-- Witness for C6 at the freshly initialized state. -/
theorem QuickTune_Start_spec_witness :
    (QuickTune_Start QuickTune_Init).1 = true ∧
    (QuickTune_Start QuickTune_Init).2.state = .measuring ∧
    (QuickTune_Start QuickTune_Init).2.current_band = 0 :=
  ⟨(QuickTune_Start_spec QuickTune_Init).1.mpr rfl,
   ((QuickTune_Start_spec QuickTune_Init).2.1 rfl).1,
   ((QuickTune_Start_spec QuickTune_Init).2.1 rfl).2.1⟩

/- ===================== C9 ===================== -/

/-- C9: `Stop()` from any state forces Idle and zeroes the band index,
sample counter and iteration counter, leaves the measured-level,
correction-gain and cumulative-gain arrays (and the rest of the state)
unchanged, and afterwards both result getters return null because they
are gated on the Done state. -/
theorem QuickTune_Stop_spec (s : QTState) :
    (QuickTune_Stop s).state = .idle ∧
    (QuickTune_Stop s).current_band = 0 ∧
    (QuickTune_Stop s).sample_counter = 0 ∧
    (QuickTune_Stop s).iteration = 0 ∧
    (QuickTune_Stop s).measured_levels = s.measured_levels ∧
    (QuickTune_Stop s).correction_gains = s.correction_gains ∧
    (QuickTune_Stop s).cumulative_gains = s.cumulative_gains ∧
    (QuickTune_Stop s).last_error = s.last_error ∧
    (QuickTune_Stop s).eq10 = s.eq10 ∧
    QuickTune_GetCorrectionGains (QuickTune_Stop s) = none ∧
    QuickTune_GetMeasuredLevels (QuickTune_Stop s) = none := by
  refine ⟨rfl, rfl, rfl, rfl, rfl, rfl, rfl, rfl, rfl, ?_, ?_⟩
  · unfold QuickTune_GetCorrectionGains
    rw [if_neg (by simp [QuickTune_Stop])]
  · unfold QuickTune_GetMeasuredLevels
    rw [if_neg (by simp [QuickTune_Stop])]

/- ===================== C10 ===================== -/

/-- C10: `ApplyGains` with a non-null gains array never changes the
state-machine state: it copies the gains into the cumulative-gain array,
programs the equalizer via `EQ10_SetAllGains(gains, Q=2)`, clears the
last-error code, and a caller in Idle stays in Idle, so
`GetCorrectionGains` still returns null. -/
theorem QuickTune_ApplyGains_frame (s : QTState) (g : ℕ → ℝ) :
    (QuickTune_ApplyGains (some g) s).state = s.state ∧
    (∀ band, band < QUICKTUNE_NUM_BANDS →
      (QuickTune_ApplyGains (some g) s).cumulative_gains band = g band) ∧
    (QuickTune_ApplyGains (some g) s).last_error = 0 ∧
    (QuickTune_ApplyGains (some g) s).eq10 =
      (EQ10_SetAllGains s.eq10 (some g) QUICKTUNE_EQ_Q).2 ∧
    (s.state = .idle →
      QuickTune_GetCorrectionGains (QuickTune_ApplyGains (some g) s) = none) := by
  refine ⟨rfl, fun band hb => ?_, rfl, rfl, fun hidle => ?_⟩
  · show (if band < QUICKTUNE_NUM_BANDS then g band else s.cumulative_gains band) = g band
    rw [if_pos hb]
  · unfold QuickTune_GetCorrectionGains
    rw [if_neg]
    show ¬((QuickTune_ApplyGains (some g) s).state = QuickTuneState.done)
    have : (QuickTune_ApplyGains (some g) s).state = s.state := rfl
    rw [this, hidle]
    exact fun hc => QuickTuneState.noConfusion hc

/-- Witness for C10 at the freshly initialized state and the preset array. -/
theorem QuickTune_ApplyGains_frame_witness :
    (QuickTune_ApplyGains (some presetGains) QuickTune_Init).cumulative_gains 0 =
      presetGains 0 ∧
    QuickTune_GetCorrectionGains
      (QuickTune_ApplyGains (some presetGains) QuickTune_Init) = none :=
  ⟨(QuickTune_ApplyGains_frame QuickTune_Init presetGains).2.1 0
      (by simp [QUICKTUNE_NUM_BANDS]),
   (QuickTune_ApplyGains_frame QuickTune_Init presetGains).2.2.2.2 rfl⟩

/- ===================== C2 ===================== -/

/-- C2 (code bug): `Goertzel_Init`'s own comment and the spec prescribe the
bin index `k = round(N·f/fs)`, but the code computes the float
`N·f/fs + 0.5` and never truncates it.  At band 1 (f = 40 Hz, N = 4800,
all float-exact) the code uses the non-integer bin 4.5 instead of 4, so
the recurrence coefficient `2·cos(2πk/N)` differs from the specified one. -/
theorem Goertzel_binIndex_code_bug :
    Goertzel_binIndex 40 4800 = 9/2 ∧
    specBinIndex 40 4800 = 4 ∧
    Goertzel_coeffOf 40 4800 ≠ specGoertzelCoeff 40 4800 := by
  have hk : Goertzel_binIndex 40 4800 = 9/2 := by
    norm_num [Goertzel_binIndex]
  have hs : specBinIndex 40 4800 = 4 := by
    have : ((4800 : ℚ) * 40 / 48000) = 4 := by norm_num
    simp [specBinIndex, this]
  refine ⟨hk, hs, fun h => ?_⟩
  unfold Goertzel_coeffOf specGoertzelCoeff at h
  have hπ := Real.pi_pos
  have e1 : ((Goertzel_binIndex 40 ((4800:ℕ):ℚ) : ℚ) : ℝ) = 9/2 := by
    norm_num [Goertzel_binIndex]
  have e2 : ((specBinIndex 40 ((4800:ℕ):ℚ) : ℤ) : ℝ) = 4 := by
    have h4 : ((4800:ℕ):ℚ) * 40 / 48000 = 4 := by norm_num
    norm_num [specBinIndex, h4]
  rw [e1, e2] at h
  have hN : ((4800 : ℕ) : ℝ) = 4800 := by norm_num
  rw [hN] at h
  have hcos : Real.cos (2 * Real.pi * (9/2) / 4800) =
      Real.cos (2 * Real.pi * 4 / 4800) := by linarith
  have h1 : (2 * Real.pi * (9/2) / 4800) ∈ Set.Icc (0:ℝ) Real.pi := by
    constructor
    · positivity
    · nlinarith
  have h2 : (2 * Real.pi * 4 / 4800) ∈ Set.Icc (0:ℝ) Real.pi := by
    constructor
    · positivity
    · nlinarith
  have heq := Real.injOn_cos h1 h2 hcos
  nlinarith [heq]

/- ===================== C3 ===================== -/

/-- C3 counterexample: with iteration-0 deviation 0 (previous cumulative
gain `clamp(-0) = 0`) and an iteration-1 measured level of −20 dB, the
code's Computing step yields cumulative gain
`clamp(0 + clamp(20)·0.7) = 8.4`, while the claim's formula — the
unclamped new deviation times 0.7 — yields `clamp(0 + 20·0.7) = 12`. -/
theorem ComputeCorrectionGains_damping_counterexample :
    (ComputeCorrectionGains
        (mkComputingState 1 (fun _ => -20) (fun _ => clampGainDb (-0)))).cumulative_gains 0
      = 42/5 ∧
    clampGainDb (clampGainDb (-0) + (-(-20 : ℝ)) * QUICKTUNE_DAMPING_FACTOR) = 12 ∧
    (42/5 : ℝ) ≠ 12 := by
  have hc0 : clampGainDb (-(0:ℝ)) = 0 := by
    norm_num [clampGainDb, QUICKTUNE_MAX_GAIN_DB, QUICKTUNE_MIN_GAIN_DB]
  have hc20 : clampGainDb (-(-20:ℝ)) = 12 := by
    norm_num [clampGainDb, QUICKTUNE_MAX_GAIN_DB, QUICKTUNE_MIN_GAIN_DB]
  refine ⟨?_, ?_, by norm_num⟩
  · show (if (0:ℕ) < QUICKTUNE_NUM_BANDS then
        if (1:ℕ) = 0 then clampGainDb (-(-20:ℝ))
        else clampGainDb (clampGainDb (-0) +
          clampGainDb (-(-20:ℝ)) * QUICKTUNE_DAMPING_FACTOR)
      else clampGainDb (-0)) = 42/5
    rw [if_pos (by norm_num [QUICKTUNE_NUM_BANDS]), if_neg (by norm_num), hc0, hc20]
    norm_num [clampGainDb, QUICKTUNE_MAX_GAIN_DB, QUICKTUNE_MIN_GAIN_DB,
      QUICKTUNE_DAMPING_FACTOR]
  · rw [hc0]
    norm_num [clampGainDb, QUICKTUNE_MAX_GAIN_DB, QUICKTUNE_MIN_GAIN_DB,
      QUICKTUNE_DAMPING_FACTOR]

/-- C3 amended: on iteration 0 the Computing step sets every band's
cumulative gain to `clamp(-d)`; on iteration 1 it adds the *clamped* new
correction `clamp(-d₁, -12, 12)` times the damping factor 0.7 to the
previous cumulative gain and re-clamps the sum to ±12 dB (the code damps
the clamped correction, not the raw deviation). -/
theorem ComputeCorrectionGains_damping (d d1 prev : ℝ) (band : ℕ)
    (hb : band < QUICKTUNE_NUM_BANDS) :
    (ComputeCorrectionGains (mkComputingState 0 (fun _ => d) (fun _ => 0))).cumulative_gains band
      = clampGainDb (-d) ∧
    (ComputeCorrectionGains (mkComputingState 1 (fun _ => d1) (fun _ => prev))).cumulative_gains band
      = clampGainDb (prev + clampGainDb (-d1) * QUICKTUNE_DAMPING_FACTOR) := by
  constructor
  · show (if band < QUICKTUNE_NUM_BANDS then
        if (0:ℕ) = 0 then clampGainDb (-d)
        else clampGainDb (0 + clampGainDb (-d) * QUICKTUNE_DAMPING_FACTOR)
      else (0:ℝ)) = clampGainDb (-d)
    rw [if_pos hb, if_pos rfl]
  · show (if band < QUICKTUNE_NUM_BANDS then
        if (1:ℕ) = 0 then clampGainDb (-d1)
        else clampGainDb (prev + clampGainDb (-d1) * QUICKTUNE_DAMPING_FACTOR)
      else prev) = clampGainDb (prev + clampGainDb (-d1) * QUICKTUNE_DAMPING_FACTOR)
    rw [if_pos hb, if_neg (by norm_num)]

/-- Witness for C3's amended theorem at `d = d₁ = prev = 0`, band 0. -/
theorem ComputeCorrectionGains_damping_witness :
    (ComputeCorrectionGains
        (mkComputingState 0 (fun _ => (0:ℝ)) (fun _ => 0))).cumulative_gains 0
      = clampGainDb (-(0:ℝ)) :=
  (ComputeCorrectionGains_damping 0 0 0 0 (by norm_num [QUICKTUNE_NUM_BANDS])).1

/- ===================== C4 ===================== -/

/-- With 0 dB gain, `A = 10^0 = 1` and the designed vector reduces to
`[(1+α)/(1+α), -2cos(w0)/(1+α), (1-α)/(1+α), -2cos(w0)/(1+α), (1-α)/(1+α)]`. -/
lemma EQ10_DesignBiquad_zero_gain_eq (fc Q fs : ℝ) :
    EQ10_DesignBiquad fc 0 Q fs =
      ![ (1 + Real.sin (2 * Real.pi * fc / fs) / (2 * Q)) /
           (1 + Real.sin (2 * Real.pi * fc / fs) / (2 * Q)),
         (-2 * Real.cos (2 * Real.pi * fc / fs)) /
           (1 + Real.sin (2 * Real.pi * fc / fs) / (2 * Q)),
         (1 - Real.sin (2 * Real.pi * fc / fs) / (2 * Q)) /
           (1 + Real.sin (2 * Real.pi * fc / fs) / (2 * Q)),
         (-2 * Real.cos (2 * Real.pi * fc / fs)) /
           (1 + Real.sin (2 * Real.pi * fc / fs) / (2 * Q)),
         (1 - Real.sin (2 * Real.pi * fc / fs) / (2 * Q)) /
           (1 + Real.sin (2 * Real.pi * fc / fs) / (2 * Q)) ] := by
  have hA : ((10 : ℝ) ^ ((0:ℝ) / 40)) = 1 := by
    norm_num
  simp only [EQ10_DesignBiquad, hA, mul_one, div_one]

/-- C4 counterexample: at the first band (fc = 25 Hz, Q = 2, fs = 48 kHz)
the 0 dB design is not the literal vector `[1,0,0,0,0]`: its second
component `-2cos(w0)/(1+α)` is strictly negative, since
`w0 = π/960 ∈ (0, π/2)`. -/
theorem EQ10_DesignBiquad_zero_gain_counterexample :
    EQ10_DesignBiquad 25 0 QUICKTUNE_EQ_Q ((QUICKTUNE_SAMPLE_RATE : ℕ) : ℝ) ≠
      ![1, 0, 0, 0, 0] := by
  intro h
  have h1 := congrFun h 1
  rw [EQ10_DesignBiquad_zero_gain_eq] at h1
  simp only [Matrix.cons_val_one, Matrix.head_cons] at h1
  have hπ := Real.pi_pos
  have hfs : ((QUICKTUNE_SAMPLE_RATE : ℕ) : ℝ) = 48000 := by
    norm_num [QUICKTUNE_SAMPLE_RATE]
  rw [hfs] at h1
  have hw : 2 * Real.pi * 25 / 48000 = Real.pi / 960 := by ring
  rw [hw] at h1
  have hsin : 0 < Real.sin (Real.pi / 960) :=
    Real.sin_pos_of_pos_of_lt_pi (by positivity) (by nlinarith)
  have hcos : 0 < Real.cos (Real.pi / 960) := by
    apply Real.cos_pos_of_mem_Ioo
    constructor
    · nlinarith
    · nlinarith
  have hQ : QUICKTUNE_EQ_Q = (2:ℝ) := rfl
  rw [hQ] at h1
  have hden : 0 < 1 + Real.sin (Real.pi / 960) / (2 * 2) := by nlinarith
  have hneg : (-2 * Real.cos (Real.pi / 960)) /
      (1 + Real.sin (Real.pi / 960) / (2 * 2)) < 0 :=
    div_neg_of_neg_of_pos (by nlinarith) hden
  rw [h1] at hneg
  exact lt_irrefl 0 hneg

/-- C4 amended: for every center frequency, quality factor and sample rate
(whenever the normalizing denominator `a0 = 1 + α` is nonzero), the 0 dB
design has leading coefficient 1 and its numerator triple equals its
denominator triple (components 1 = 3 and 2 = 4), i.e. it is the identity
filter as a transfer function — but it is not the literal coefficient
vector `[1,0,0,0,0]`. -/
theorem EQ10_DesignBiquad_zero_gain_identity (fc Q fs : ℝ)
    (h : 1 + Real.sin (2 * Real.pi * fc / fs) / (2 * Q) ≠ 0) :
    EQ10_DesignBiquad fc 0 Q fs 0 = 1 ∧
    EQ10_DesignBiquad fc 0 Q fs 1 = EQ10_DesignBiquad fc 0 Q fs 3 ∧
    EQ10_DesignBiquad fc 0 Q fs 2 = EQ10_DesignBiquad fc 0 Q fs 4 := by
  rw [EQ10_DesignBiquad_zero_gain_eq]
  refine ⟨?_, ?_, ?_⟩
  · simp only [Matrix.cons_val_zero]
    exact div_self h
  · simp only [Matrix.cons_val_one, Matrix.head_cons, Matrix.cons_val_three,
      Matrix.tail_cons]
  · simp only [Matrix.cons_val_two, Matrix.tail_cons, Matrix.head_cons,
      Matrix.cons_val_four]

/-- Witness for C4's amended theorem at fc = 25, Q = 2, fs = 48000. -/
theorem EQ10_DesignBiquad_zero_gain_identity_witness :
    EQ10_DesignBiquad 25 0 2 48000 0 = 1 := by
  have hπ := Real.pi_pos
  have hsin : 0 < Real.sin (2 * Real.pi * 25 / 48000) := by
    have hw : 2 * Real.pi * 25 / 48000 = Real.pi / 960 := by ring
    rw [hw]
    exact Real.sin_pos_of_pos_of_lt_pi (by positivity) (by nlinarith)
  exact (EQ10_DesignBiquad_zero_gain_identity 25 2 48000 (by positivity)).1

/- ===================== C7 ===================== -/

lemma clampGainDb_50 : clampGainDb 50 = 12 := by
  norm_num [clampGainDb, QUICKTUNE_MAX_GAIN_DB, QUICKTUNE_MIN_GAIN_DB]

lemma clampGainDb_12 : clampGainDb 12 = 12 := by
  norm_num [clampGainDb, QUICKTUNE_MAX_GAIN_DB, QUICKTUNE_MIN_GAIN_DB]

lemma clampQ_50 : clampQ 50 = 20 := by
  norm_num [clampQ]

lemma clampQ_20 : clampQ 20 = 20 := by
  norm_num [clampQ]

/-- C7: on an initialized engine and a valid band, requesting 50 dB through
`SetBandGain`/`SetAllGains` produces results identical to requesting the
configured maximum 12 dB, and requesting Q = 50 produces results identical
to Q = 20; the out-of-range requests are never rejected (return true). -/
theorem EQ10_setter_clamping (eq : EQ10State) (band : ℤ) (g Q : ℝ)
    (gains : ℕ → ℝ) (hinit : eq.initialized = true)
    (hband : EQ10_IsValidBand band) :
    EQ10_SetBandGain eq band 50 Q = EQ10_SetBandGain eq band 12 Q ∧
    EQ10_SetBandGain eq band g 50 = EQ10_SetBandGain eq band g 20 ∧
    (EQ10_SetBandGain eq band 50 50).1 = true ∧
    EQ10_SetAllGains eq (some fun _ => 50) Q =
      EQ10_SetAllGains eq (some fun _ => 12) Q ∧
    EQ10_SetAllGains eq (some gains) 50 = EQ10_SetAllGains eq (some gains) 20 ∧
    (EQ10_SetAllGains eq (some gains) 50).1 = true := by
  have hcond : ¬(¬(eq.initialized = true) ∨ ¬EQ10_IsValidBand band) := by
    simp [hinit, hband]
  have hcond2 : ¬¬(eq.initialized = true) := by simp [hinit]
  refine ⟨?_, ?_, ?_, ?_, ?_, ?_⟩
  · unfold EQ10_SetBandGain
    rw [if_neg hcond, if_neg hcond, clampGainDb_50, clampGainDb_12]
  · unfold EQ10_SetBandGain
    rw [if_neg hcond, if_neg hcond, clampQ_50, clampQ_20]
  · unfold EQ10_SetBandGain
    rw [if_neg hcond]
  · simp only [EQ10_SetAllGains, hinit, not_true_eq_false, ite_false,
      clampGainDb_50, clampGainDb_12]
  · simp only [EQ10_SetAllGains, hinit, not_true_eq_false, ite_false,
      clampQ_50, clampQ_20]
  · simp only [EQ10_SetAllGains, hinit, not_true_eq_false, ite_false]

/-- Witness for C7 on the freshly initialized engine, band 0. -/
theorem EQ10_setter_clamping_witness :
    EQ10_SetBandGain EQ10_Init 0 50 2 = EQ10_SetBandGain EQ10_Init 0 12 2 ∧
    (EQ10_SetAllGains EQ10_Init (some fun _ => (0:ℝ)) 50).1 = true :=
  ⟨(EQ10_setter_clamping EQ10_Init 0 0 2 (fun _ => 0) rfl (by decide)).1,
   (EQ10_setter_clamping EQ10_Init 0 0 2 (fun _ => 0) rfl (by decide)).2.2.2.2.2⟩

/- ===================== C8 ===================== -/

/-- C8: after `QuickTune_ApplyGains` with the preset
`[-2.5,-1.8,0.5,1.2,-0.3,-1.5,0.8,0.2,-0.5,0.0]` on an initialized system,
`EQ10_GetCoefficients` returns, for every band, exactly the
`EQ10_DesignBiquad` output for (band frequency, requested gain, Q = 2) at
48 kHz (all preset values lie inside ±12 dB and Q = 2 inside [0.1, 20],
so the clamps are the identity). -/
theorem QuickTune_ApplyGains_design (s : QTState)
    (hinit : s.eq10.initialized = true) (band : ℕ)
    (hb : band < QUICKTUNE_NUM_BANDS) :
    EQ10_GetCoefficients (QuickTune_ApplyGains (some presetGains) s).eq10 band =
      EQ10_DesignBiquad (QUICKTUNE_BAND_FREQUENCIES band) (presetGains band)
        QUICKTUNE_EQ_Q (QUICKTUNE_SAMPLE_RATE : ℝ) := by
  have hg : clampGainDb (presetGains band) = presetGains band := by
    have hb10 : band < 10 := by simpa [QUICKTUNE_NUM_BANDS] using hb
    interval_cases band <;>
      norm_num [presetGains, clampGainDb, QUICKTUNE_MAX_GAIN_DB, QUICKTUNE_MIN_GAIN_DB]
  have hq : clampQ QUICKTUNE_EQ_Q = QUICKTUNE_EQ_Q := by
    norm_num [clampQ, QUICKTUNE_EQ_Q]
  have hcond2 : ¬¬(s.eq10.initialized = true) := by simp [hinit]
  show ((EQ10_SetAllGains s.eq10 (some presetGains) QUICKTUNE_EQ_Q).2).coeffs band = _
  simp only [EQ10_SetAllGains, hinit, not_true_eq_false, ite_false]
  show (if band < QUICKTUNE_NUM_BANDS then
      EQ10_DesignBiquad (QUICKTUNE_BAND_FREQUENCIES band)
        (clampGainDb (presetGains band)) (clampQ QUICKTUNE_EQ_Q)
        (QUICKTUNE_SAMPLE_RATE : ℝ)
    else s.eq10.coeffs band) = _
  rw [if_pos hb, hg, hq]

/-- Witness for C8 at the freshly initialized system, band 0. -/
theorem QuickTune_ApplyGains_design_witness :
    EQ10_GetCoefficients
        (QuickTune_ApplyGains (some presetGains) QuickTune_Init).eq10 0 =
      EQ10_DesignBiquad (QUICKTUNE_BAND_FREQUENCIES 0) (presetGains 0)
        QUICKTUNE_EQ_Q (QUICKTUNE_SAMPLE_RATE : ℝ) :=
  QuickTune_ApplyGains_design QuickTune_Init rfl 0 (by decide)

/- ============ loop lemmas for the Measuring state (C1, C5) ============ -/

lemma MeasureLoop_no_finish (mic : ℕ → ℝ) :
    ∀ (r i : ℕ) (s : QTState),
      s.sample_counter + r < QUICKTUNE_TONE_TOTAL_SAMPLES →
      (QuickTune_MeasureLoop mic r i s).1.state = s.state ∧
      (QuickTune_MeasureLoop mic r i s).1.current_band = s.current_band ∧
      (QuickTune_MeasureLoop mic r i s).1.sample_counter = s.sample_counter + r ∧
      (QuickTune_MeasureLoop mic r i s).1.iteration = s.iteration ∧
      (QuickTune_MeasureLoop mic r i s).1.measured_levels = s.measured_levels := by
  intro r
  induction r with
  | zero => intro i s h; exact ⟨rfl, rfl, rfl, rfl, rfl⟩
  | succ n ih =>
    intro i s h
    have hp := measureSampleStep_proj mic i s
    have hguard :
        ¬(QUICKTUNE_TONE_TOTAL_SAMPLES ≤ (measureSampleStep mic i s).sample_counter) := by
      rw [hp.2.2.1]; omega
    have ihs := ih (i+1) (measureSampleStep mic i s) (by rw [hp.2.2.1]; omega)
    simp only [QuickTune_MeasureLoop]
    rw [if_neg hguard]
    refine ⟨?_, ?_, ?_, ?_, ?_⟩
    · show (QuickTune_MeasureLoop mic n (i+1) (measureSampleStep mic i s)).1.state = s.state
      rw [ihs.1, hp.1]
    · show (QuickTune_MeasureLoop mic n (i+1) (measureSampleStep mic i s)).1.current_band =
        s.current_band
      rw [ihs.2.1, hp.2.1]
    · show (QuickTune_MeasureLoop mic n (i+1) (measureSampleStep mic i s)).1.sample_counter =
        s.sample_counter + (n + 1)
      rw [ihs.2.2.1, hp.2.2.1]; omega
    · show (QuickTune_MeasureLoop mic n (i+1) (measureSampleStep mic i s)).1.iteration =
        s.iteration
      rw [ihs.2.2.2.1, hp.2.2.2.1]
    · show (QuickTune_MeasureLoop mic n (i+1) (measureSampleStep mic i s)).1.measured_levels =
        s.measured_levels
      rw [ihs.2.2.2.2, hp.2.2.2.2.1]

lemma MeasureLoop_no_finish_gzero (mic : ℕ → ℝ) (hmic : ∀ j, mic j = 0) :
    ∀ (r i : ℕ) (s : QTState),
      s.sample_counter + r < QUICKTUNE_TONE_TOTAL_SAMPLES →
      s.goertzel_s1 = 0 → s.goertzel_s2 = 0 →
      (QuickTune_MeasureLoop mic r i s).1.goertzel_s1 = 0 ∧
      (QuickTune_MeasureLoop mic r i s).1.goertzel_s2 = 0 := by
  intro r
  induction r with
  | zero => intro i s h h1 h2; exact ⟨h1, h2⟩
  | succ n ih =>
    intro i s h h1 h2
    have hp := measureSampleStep_proj mic i s
    have hz := measureSampleStep_gzero mic i s (hmic i) h1 h2
    have hguard :
        ¬(QUICKTUNE_TONE_TOTAL_SAMPLES ≤ (measureSampleStep mic i s).sample_counter) := by
      rw [hp.2.2.1]; omega
    have ihs := ih (i+1) (measureSampleStep mic i s) (by rw [hp.2.2.1]; omega) hz.1 hz.2
    simp only [QuickTune_MeasureLoop]
    rw [if_neg hguard]
    exact ihs

lemma Goertzel_GetPower_zero (n : ℕ) (s : QTState)
    (h1 : s.goertzel_s1 = 0) (h2 : s.goertzel_s2 = 0) :
    Goertzel_GetPower n s = -120 := by
  simp only [Goertzel_GetPower, h1, h2]
  norm_num

lemma finishBand_proj_lt (s3 : QTState)
    (h : s3.current_band + 1 < QUICKTUNE_NUM_BANDS) :
    (finishBand s3).state = s3.state ∧
    (finishBand s3).current_band = s3.current_band + 1 ∧
    (finishBand s3).sample_counter = 0 ∧
    (finishBand s3).iteration = s3.iteration ∧
    (finishBand s3).goertzel_s1 = 0 ∧
    (finishBand s3).goertzel_s2 = 0 ∧
    (finishBand s3).measured_levels =
      Function.update s3.measured_levels s3.current_band
        (Goertzel_GetPower QUICKTUNE_TONE_ANALYSIS_SAMPLES s3 +
          QUICKTUNE_MEMS_CALIBRATION s3.current_band) := by
  simp only [finishBand]
  have hp := StartBandMeasurement_proj
    { s3 with
      measured_levels := Function.update s3.measured_levels s3.current_band
        (Goertzel_GetPower QUICKTUNE_TONE_ANALYSIS_SAMPLES s3 +
          QUICKTUNE_MEMS_CALIBRATION s3.current_band),
      current_band := s3.current_band + 1 }
    (by exact h)
  exact ⟨hp.1, hp.2.1, hp.2.2.1, hp.2.2.2.1, hp.2.2.2.2.2.1,
    hp.2.2.2.2.2.2.1, hp.2.2.2.2.1⟩

lemma finishBand_proj_ge (s3 : QTState)
    (h : QUICKTUNE_NUM_BANDS ≤ s3.current_band + 1) :
    (finishBand s3).state = .computing ∧
    (finishBand s3).current_band = s3.current_band + 1 ∧
    (finishBand s3).iteration = s3.iteration ∧
    (finishBand s3).measured_levels =
      Function.update s3.measured_levels s3.current_band
        (Goertzel_GetPower QUICKTUNE_TONE_ANALYSIS_SAMPLES s3 +
          QUICKTUNE_MEMS_CALIBRATION s3.current_band) := by
  simp only [finishBand]
  rw [StartBandMeasurement_of_ge _ (by exact h)]
  exact ⟨rfl, rfl, rfl, rfl⟩

lemma MeasureLoop_finish (mic : ℕ → ℝ) :
    ∀ (r i : ℕ) (s : QTState), 0 < r →
      s.sample_counter + r = QUICKTUNE_TONE_TOTAL_SAMPLES →
      ∃ s3 : QTState,
        (QuickTune_MeasureLoop mic r i s).1 = finishBand s3 ∧
        s3.state = s.state ∧
        s3.current_band = s.current_band ∧
        s3.iteration = s.iteration ∧
        s3.measured_levels = s.measured_levels ∧
        ((∀ j, mic j = 0) → s.goertzel_s1 = 0 → s.goertzel_s2 = 0 →
          s3.goertzel_s1 = 0 ∧ s3.goertzel_s2 = 0) := by
  intro r
  induction r with
  | zero => intro i s h0 _; exact absurd h0 (lt_irrefl 0)
  | succ n ih =>
    intro i s _ htot
    have hp := measureSampleStep_proj mic i s
    rcases Nat.eq_zero_or_pos n with hn | hn
    · -- last sample: the completion branch fires
      subst hn
      have hguard :
          QUICKTUNE_TONE_TOTAL_SAMPLES ≤ (measureSampleStep mic i s).sample_counter := by
        rw [hp.2.2.1]; omega
      refine ⟨measureSampleStep mic i s, ?_, hp.1, hp.2.1, hp.2.2.2.1, hp.2.2.2.2.1,
        fun hm h1 h2 => measureSampleStep_gzero mic i s (hm i) h1 h2⟩
      simp only [QuickTune_MeasureLoop]
      rw [if_pos hguard]
    · -- not yet the last sample: step and recurse
      have hguard :
          ¬(QUICKTUNE_TONE_TOTAL_SAMPLES ≤ (measureSampleStep mic i s).sample_counter) := by
        rw [hp.2.2.1]; omega
      obtain ⟨s3, heq, hst, hband, hiter, hmeas, hgz⟩ :=
        ih (i+1) (measureSampleStep mic i s) hn (by rw [hp.2.2.1]; omega)
      refine ⟨s3, ?_, hst.trans hp.1, hband.trans hp.2.1, hiter.trans hp.2.2.2.1,
        hmeas.trans hp.2.2.2.2.1, fun hm h1 h2 => ?_⟩
      · simp only [QuickTune_MeasureLoop]
        rw [if_neg hguard]
        exact heq
      · have hz := measureSampleStep_gzero mic i s (hm i) h1 h2
        exact hgz hm hz.1 hz.2

/- ============ ProcessBlock dispatch and one-shot steps ============ -/

lemma ProcessBlock_measuring (e : Bool) (mi : ℕ) (mic : ℕ → ℝ) (n : ℕ)
    (s : QTState) (h : s.state = .measuring) :
    QuickTune_ProcessBlock e mi mic n s = QuickTune_MeasureLoop mic n 0 s := by
  unfold QuickTune_ProcessBlock
  rw [h]

lemma ProcessBlock_computing (e : Bool) (mi : ℕ) (mic : ℕ → ℝ) (n : ℕ)
    (s : QTState) (h : s.state = .computing) :
    QuickTune_ProcessBlock e mi mic n s =
      (ComputeCorrectionGains s, List.replicate n 0) := by
  unfold QuickTune_ProcessBlock
  rw [h]

lemma ProcessBlock_applying (e : Bool) (mi : ℕ) (mic : ℕ → ℝ) (n : ℕ)
    (s : QTState) (h : s.state = .applying) :
    QuickTune_ProcessBlock e mi mic n s =
      (ApplyCorrectionGains e mi s, List.replicate n 0) := by
  unfold QuickTune_ProcessBlock
  rw [h]

lemma ComputeCorrectionGains_state (s : QTState) :
    (ComputeCorrectionGains s).state = .applying ∧
    (ComputeCorrectionGains s).iteration = s.iteration ∧
    (ComputeCorrectionGains s).measured_levels = s.measured_levels :=
  ⟨rfl, rfl, rfl⟩

lemma ComputeCorrectionGains_gains (s : QTState) (band : ℕ)
    (hb : band < QUICKTUNE_NUM_BANDS) :
    (ComputeCorrectionGains s).correction_gains band =
      clampGainDb (-(s.measured_levels band)) ∧
    (ComputeCorrectionGains s).cumulative_gains band =
      (if s.iteration = 0 then clampGainDb (-(s.measured_levels band))
       else clampGainDb (s.cumulative_gains band +
         clampGainDb (-(s.measured_levels band)) * QUICKTUNE_DAMPING_FACTOR)) := by
  constructor
  · show (if band < QUICKTUNE_NUM_BANDS then clampGainDb (-(s.measured_levels band))
      else s.correction_gains band) = _
    rw [if_pos hb]
  · show (if band < QUICKTUNE_NUM_BANDS then
        if s.iteration = 0 then clampGainDb (-(s.measured_levels band))
        else clampGainDb (s.cumulative_gains band +
          clampGainDb (-(s.measured_levels band)) * QUICKTUNE_DAMPING_FACTOR)
      else s.cumulative_gains band) = _
    rw [if_pos hb]

lemma ApplyCorrectionGains_state (e : Bool) (mi : ℕ) (s : QTState) :
    (ApplyCorrectionGains e mi s).state =
      (if e = true ∧ s.iteration < mi - 1 then .measuring else .done) := by
  unfold ApplyCorrectionGains
  split
  · rename_i hcond
    rw [if_pos hcond]
    exact (StartBandMeasurement_proj _ (by exact Nat.succ_le_of_lt (by norm_num [QUICKTUNE_NUM_BANDS]))).1
  · rename_i hcond
    rw [if_neg hcond]

lemma startedState_proj :
    startedState.state = .measuring ∧
    startedState.current_band = 0 ∧
    startedState.sample_counter = 0 ∧
    startedState.iteration = 0 ∧
    startedState.goertzel_s1 = 0 ∧
    startedState.goertzel_s2 = 0 ∧
    startedState.measured_levels = fun _ => (0:ℝ) := by
  unfold startedState QuickTune_Start
  rw [if_neg (by decide)]
  have hp := StartBandMeasurement_proj
    { QuickTune_Init with iteration := 0, current_band := 0, state := .measuring }
    (by decide)
  exact ⟨hp.1, hp.2.1, hp.2.2.1, hp.2.2.2.1, hp.2.2.2.2.2.1, hp.2.2.2.2.2.2.1,
    hp.2.2.2.2.1⟩

/- ============ block-accounting invariant (C1) ============ -/

/-- During the first measurement sweep the controller stays in Measuring
for exactly 4500 blocks of 32 samples (10 bands × 450 blocks), with band
index `m / 450` and in-tone sample counter `32·(m % 450)`, and enters
Computing on block 4500. -/
lemma runBlocks_inv (e : Bool) (mi : ℕ) (mic : ℕ → ℕ → ℝ) :
    ∀ m : ℕ, m ≤ 4500 →
      (runBlocks e mi mic m startedState).iteration = 0 ∧
      (m < 4500 →
        (runBlocks e mi mic m startedState).state = .measuring ∧
        (runBlocks e mi mic m startedState).current_band = m / 450 ∧
        (runBlocks e mi mic m startedState).sample_counter = 32 * (m % 450)) ∧
      (m = 4500 →
        (runBlocks e mi mic m startedState).state = .computing) := by
  intro m
  induction m with
  | zero =>
    intro _
    refine ⟨?_, fun _ => ⟨?_, ?_, ?_⟩, by omega⟩
    · show startedState.iteration = 0
      exact startedState_proj.2.2.2.1
    · show startedState.state = .measuring
      exact startedState_proj.1
    · show startedState.current_band = 0 / 450
      rw [startedState_proj.2.1]
    · show startedState.sample_counter = 32 * (0 % 450)
      rw [startedState_proj.2.2.1]
  | succ k ih =>
    intro hk1
    have hklt : k < 4500 := by omega
    obtain ⟨hiter, hmeas, _⟩ := ih (by omega)
    obtain ⟨hst, hband, hcnt⟩ := hmeas hklt
    set sk := runBlocks e mi mic k startedState with hsk
    have hstep : runBlocks e mi mic (k+1) startedState =
        (QuickTune_MeasureLoop (mic k) QUICKTUNE_BLOCK_SIZE 0 sk).1 := by
      show (QuickTune_ProcessBlock e mi (mic k) QUICKTUNE_BLOCK_SIZE sk).1 = _
      rw [ProcessBlock_measuring e mi (mic k) QUICKTUNE_BLOCK_SIZE sk hst]
    by_cases hmod : k % 450 < 449
    · -- the tone does not complete inside this block
      have hlt : sk.sample_counter + QUICKTUNE_BLOCK_SIZE <
          QUICKTUNE_TONE_TOTAL_SAMPLES := by
        rw [hcnt]; show 32 * (k % 450) + 32 < 14400; omega
      have hnf := MeasureLoop_no_finish (mic k) QUICKTUNE_BLOCK_SIZE 0 sk hlt
      rw [hstep]
      refine ⟨?_, fun _ => ⟨?_, ?_, ?_⟩, fun h4 => absurd h4 (by omega)⟩
      · rw [hnf.2.2.2.1, hiter]
      · rw [hnf.1, hst]
      · rw [hnf.2.1, hband]; omega
      · rw [hnf.2.2.1, hcnt]
        show 32 * (k % 450) + 32 = 32 * ((k + 1) % 450)
        omega
    · -- k % 450 = 449: the tone completes on this block's last sample
      have hmod449 : k % 450 = 449 := by omega
      have heqtot : sk.sample_counter + QUICKTUNE_BLOCK_SIZE =
          QUICKTUNE_TONE_TOTAL_SAMPLES := by
        rw [hcnt]; show 32 * (k % 450) + 32 = 14400; omega
      obtain ⟨s3, heq, hst3, hband3, hiter3, hmeas3, _⟩ :=
        MeasureLoop_finish (mic k) QUICKTUNE_BLOCK_SIZE 0 sk
          (by norm_num [QUICKTUNE_BLOCK_SIZE]) heqtot
      rw [hstep, heq]
      by_cases hlast : k + 1 < 4500
      · have hlt10 : s3.current_band + 1 < QUICKTUNE_NUM_BANDS := by
          rw [hband3, hband]; show k / 450 + 1 < 10; omega
        have hf := finishBand_proj_lt s3 hlt10
        refine ⟨?_, fun _ => ⟨?_, ?_, ?_⟩, fun h4 => absurd h4 (by omega)⟩
        · rw [hf.2.2.2.1, hiter3, hiter]
        · rw [hf.1, hst3, hst]
        · rw [hf.2.1, hband3, hband]; omega
        · rw [hf.2.2.1]; omega
      · have hge10 : QUICKTUNE_NUM_BANDS ≤ s3.current_band + 1 := by
          rw [hband3, hband]; show 10 ≤ k / 450 + 1; omega
        have hf := finishBand_proj_ge s3 hge10
        refine ⟨?_, fun hlt2 => absurd hlt2 (by omega), fun _ => ?_⟩
        · rw [hf.2.2.1, hiter3, hiter]
        · exact hf.1

/- ===================== C1 ===================== -/

/-- C1: starting from Idle, after a successful `Start()` and repeated
32-sample `ProcessBlock` calls, the state is Measuring for all of the
first 4500 blocks (i.e. Computing is reached only after exactly
4500 × 32 = 144 000 = 10 × 14 400 samples), is Computing exactly at block
4500, Applying one block later, and one block after that is Measuring
when iteration is enabled and the iteration counter (0) is below
`maxIterations − 1`, and Done otherwise. -/
theorem QuickTune_block_accounting (e : Bool) (mi : ℕ) (mic : ℕ → ℕ → ℝ) :
    (QuickTune_Start QuickTune_Init).1 = true ∧
    (∀ m, m < 4500 →
      (runBlocks e mi mic m startedState).state = .measuring) ∧
    (runBlocks e mi mic 4500 startedState).state = .computing ∧
    (runBlocks e mi mic 4501 startedState).state = .applying ∧
    (runBlocks e mi mic 4502 startedState).state =
      (if e = true ∧ 0 < mi - 1 then .measuring else .done) := by
  have hrun : ∀ m, runBlocks e mi mic (m+1) startedState =
      (QuickTune_ProcessBlock e mi (mic m) QUICKTUNE_BLOCK_SIZE
        (runBlocks e mi mic m startedState)).1 := fun m => rfl
  have hinv := runBlocks_inv e mi mic
  have h4500 := (hinv 4500 (le_refl _)).2.2 rfl
  have hiter4500 := (hinv 4500 (le_refl _)).1
  have hstep1 : runBlocks e mi mic 4501 startedState =
      ComputeCorrectionGains (runBlocks e mi mic 4500 startedState) := by
    rw [show (4501:ℕ) = 4500 + 1 from rfl, hrun 4500,
      ProcessBlock_computing e mi (mic 4500) QUICKTUNE_BLOCK_SIZE _ h4500]
  have happlying : (runBlocks e mi mic 4501 startedState).state = .applying := by
    rw [hstep1]
    exact (ComputeCorrectionGains_state _).1
  have hiter4501 : (runBlocks e mi mic 4501 startedState).iteration = 0 := by
    rw [hstep1]
    exact ((ComputeCorrectionGains_state _).2.1).trans hiter4500
  have hstep2 : runBlocks e mi mic 4502 startedState =
      ApplyCorrectionGains e mi (runBlocks e mi mic 4501 startedState) := by
    rw [show (4502:ℕ) = 4501 + 1 from rfl, hrun 4501,
      ProcessBlock_applying e mi (mic 4501) QUICKTUNE_BLOCK_SIZE _ happlying]
  refine ⟨(QuickTune_Start_spec QuickTune_Init).1.mpr rfl,
    fun m hm => ((hinv m (by omega)).2.1 hm).1, h4500, happlying, ?_⟩
  rw [hstep2, ApplyCorrectionGains_state, hiter4501]

/-- Witness for C1 with the shipped configuration (iteration enabled,
3 iterations) and silent microphone input, at block 0. -/
theorem QuickTune_block_accounting_witness :
    (runBlocks QUICKTUNE_ENABLE_ITERATION QUICKTUNE_MAX_ITERATIONS zeroMic 0
        startedState).state = .measuring :=
  (QuickTune_block_accounting QUICKTUNE_ENABLE_ITERATION QUICKTUNE_MAX_ITERATIONS
    zeroMic).2.1 0 (by norm_num)

/- ============ all-zero microphone input (C5) ============ -/

lemma QUICKTUNE_MEMS_CALIBRATION_bounds (b : ℕ) :
    0 ≤ QUICKTUNE_MEMS_CALIBRATION b ∧ QUICKTUNE_MEMS_CALIBRATION b ≤ 3 := by
  match b with
  | 0 => norm_num [QUICKTUNE_MEMS_CALIBRATION]
  | 1 => norm_num [QUICKTUNE_MEMS_CALIBRATION]
  | (n+2) =>
    constructor
    · show (0:ℝ) ≤ 0; norm_num
    · show (0:ℝ) ≤ 3; norm_num

lemma clampGainDb_big (x : ℝ) (h : (12:ℝ) ≤ x) : clampGainDb x = 12 := by
  simp only [clampGainDb, QUICKTUNE_MAX_GAIN_DB, QUICKTUNE_MIN_GAIN_DB]
  split_ifs with h1 h2 h3 <;> linarith

/-- With all-zero microphone input, after `m ≤ 4500` blocks the Goertzel
state is still zero and the bands measured so far hold
`−120 + MEMS offset`. -/
lemma runBlocks_zero_inv (e : Bool) (mi : ℕ) :
    ∀ m : ℕ, m ≤ 4500 →
      (∀ b : ℕ, (runBlocks e mi zeroMic m startedState).measured_levels b =
        (if b < m / 450 then -120 + QUICKTUNE_MEMS_CALIBRATION b else 0)) ∧
      (m < 4500 →
        (runBlocks e mi zeroMic m startedState).goertzel_s1 = 0 ∧
        (runBlocks e mi zeroMic m startedState).goertzel_s2 = 0) := by
  intro m
  induction m with
  | zero =>
    intro _
    constructor
    · intro b
      show startedState.measured_levels b = _
      rw [startedState_proj.2.2.2.2.2.2]
      rw [if_neg (by omega)]
    · intro _
      exact ⟨startedState_proj.2.2.2.2.1, startedState_proj.2.2.2.2.2.1⟩
  | succ k ih =>
    intro hk1
    have hklt : k < 4500 := by omega
    obtain ⟨ihm, ihg⟩ := ih (by omega)
    obtain ⟨hg1, hg2⟩ := ihg hklt
    obtain ⟨_, hmeasuring, _⟩ := runBlocks_inv e mi zeroMic k (by omega)
    obtain ⟨hst, hband, hcnt⟩ := hmeasuring hklt
    set sk := runBlocks e mi zeroMic k startedState with hsk
    have hmic : ∀ j, zeroMic k j = 0 := fun _ => rfl
    have hstep : runBlocks e mi zeroMic (k+1) startedState =
        (QuickTune_MeasureLoop (zeroMic k) QUICKTUNE_BLOCK_SIZE 0 sk).1 := by
      show (QuickTune_ProcessBlock e mi (zeroMic k) QUICKTUNE_BLOCK_SIZE sk).1 = _
      rw [ProcessBlock_measuring e mi (zeroMic k) QUICKTUNE_BLOCK_SIZE sk hst]
    by_cases hmod : k % 450 < 449
    · have hlt : sk.sample_counter + QUICKTUNE_BLOCK_SIZE <
          QUICKTUNE_TONE_TOTAL_SAMPLES := by
        rw [hcnt]; show 32 * (k % 450) + 32 < 14400; omega
      have hnf := MeasureLoop_no_finish (zeroMic k) QUICKTUNE_BLOCK_SIZE 0 sk hlt
      have hnfz := MeasureLoop_no_finish_gzero (zeroMic k) hmic
        QUICKTUNE_BLOCK_SIZE 0 sk hlt hg1 hg2
      rw [hstep]
      constructor
      · intro b
        rw [hnf.2.2.2.2, ihm b]
        have hdiv : (k+1) / 450 = k / 450 := by omega
        rw [hdiv]
      · intro _
        exact hnfz
    · have hmod449 : k % 450 = 449 := by omega
      have heqtot : sk.sample_counter + QUICKTUNE_BLOCK_SIZE =
          QUICKTUNE_TONE_TOTAL_SAMPLES := by
        rw [hcnt]; show 32 * (k % 450) + 32 = 14400; omega
      obtain ⟨s3, heq, hst3, hband3, hiter3, hmeas3, hgz3⟩ :=
        MeasureLoop_finish (zeroMic k) QUICKTUNE_BLOCK_SIZE 0 sk
          (by norm_num [QUICKTUNE_BLOCK_SIZE]) heqtot
      obtain ⟨hz1, hz2⟩ := hgz3 hmic hg1 hg2
      have hpow : Goertzel_GetPower QUICKTUNE_TONE_ANALYSIS_SAMPLES s3 = -120 :=
        Goertzel_GetPower_zero _ s3 hz1 hz2
      have hbb : s3.current_band = k / 450 := hband3.trans hband
      have hupdate : ∀ b : ℕ,
          Function.update s3.measured_levels s3.current_band
            (Goertzel_GetPower QUICKTUNE_TONE_ANALYSIS_SAMPLES s3 +
              QUICKTUNE_MEMS_CALIBRATION s3.current_band) b =
          (if b < (k+1) / 450 then -120 + QUICKTUNE_MEMS_CALIBRATION b else 0) := by
        intro b
        have hdiv1 : (k+1) / 450 = k / 450 + 1 := by omega
        rw [Function.update_apply, hpow, hbb, hdiv1]
        by_cases hxb : b = k / 450
        · rw [if_pos hxb, hxb, if_pos (by omega)]
        · rw [if_neg hxb, hmeas3, ihm b]
          by_cases hlt2 : b < k / 450
          · rw [if_pos hlt2, if_pos (by omega)]
          · rw [if_neg hlt2, if_neg (by omega)]
      rw [hstep, heq]
      by_cases hlast : k + 1 < 4500
      · have hlt10 : s3.current_band + 1 < QUICKTUNE_NUM_BANDS := by
          rw [hbb]; show k / 450 + 1 < 10; omega
        have hf := finishBand_proj_lt s3 hlt10
        constructor
        · intro b
          rw [hf.2.2.2.2.2.2, hupdate b]
        · intro _
          exact ⟨hf.2.2.2.2.1, hf.2.2.2.2.2.1⟩
      · have hge10 : QUICKTUNE_NUM_BANDS ≤ s3.current_band + 1 := by
          rw [hbb]; show 10 ≤ k / 450 + 1; omega
        have hf := finishBand_proj_ge s3 hge10
        constructor
        · intro b
          rw [hf.2.2.2, hupdate b]
        · intro hcontra
          exact absurd hcontra (by omega)

/-- After 4501 blocks of silence the Computing step has run. -/
lemma runBlocks_zero_4501 (e : Bool) (mi : ℕ) :
    runBlocks e mi zeroMic 4501 startedState =
      ComputeCorrectionGains (runBlocks e mi zeroMic 4500 startedState) := by
  have h4500 := (runBlocks_inv e mi zeroMic 4500 (le_refl _)).2.2 rfl
  have hrun : ∀ m, runBlocks e mi zeroMic (m+1) startedState =
      (QuickTune_ProcessBlock e mi (zeroMic m) QUICKTUNE_BLOCK_SIZE
        (runBlocks e mi zeroMic m startedState)).1 := fun m => rfl
  rw [show (4501:ℕ) = 4500 + 1 from rfl, hrun 4500,
    ProcessBlock_computing e mi (zeroMic 4500) QUICKTUNE_BLOCK_SIZE _ h4500]

/- ===================== C5 ===================== -/

/-- C5 counterexample: with all-zero microphone input throughout the
Measuring phase, band 0's measured level after the Computing step is
−120 + 3 = −117 dB (the +3 dB MEMS calibration offset is added on top of
the −120 dB floor), not −120 dB as claimed. -/
theorem QuickTune_zero_mic_counterexample :
    (runBlocks QUICKTUNE_ENABLE_ITERATION QUICKTUNE_MAX_ITERATIONS zeroMic 4501
        startedState).measured_levels 0 = -117 ∧
    (-117 : ℝ) ≠ -120 := by
  constructor
  · rw [runBlocks_zero_4501, (ComputeCorrectionGains_state _).2.2]
    rw [(runBlocks_zero_inv QUICKTUNE_ENABLE_ITERATION QUICKTUNE_MAX_ITERATIONS
      4500 (le_refl _)).1 0]
    rw [if_pos (by norm_num)]
    norm_num [QUICKTUNE_MEMS_CALIBRATION]
  · norm_num

/-- C5 amended: with all-zero microphone input throughout Measuring, after
the Computing step every band's measured level equals −120 dB *plus that
band's MEMS calibration offset* (−117 dB at 25 Hz, −118.5 dB at 40 Hz,
−120 dB elsewhere), and every band's correction gain and cumulative gain
equal the +12 dB clamp maximum. -/
theorem QuickTune_zero_mic_gains (band : ℕ) (hb : band < QUICKTUNE_NUM_BANDS) :
    (runBlocks QUICKTUNE_ENABLE_ITERATION QUICKTUNE_MAX_ITERATIONS zeroMic 4501
        startedState).measured_levels band =
      -120 + QUICKTUNE_MEMS_CALIBRATION band ∧
    (runBlocks QUICKTUNE_ENABLE_ITERATION QUICKTUNE_MAX_ITERATIONS zeroMic 4501
        startedState).correction_gains band = 12 ∧
    (runBlocks QUICKTUNE_ENABLE_ITERATION QUICKTUNE_MAX_ITERATIONS zeroMic 4501
        startedState).cumulative_gains band = 12 := by
  set s45 := runBlocks QUICKTUNE_ENABLE_ITERATION QUICKTUNE_MAX_ITERATIONS zeroMic
    4500 startedState with hs45
  have hmeas : ∀ b : ℕ, s45.measured_levels b =
      (if b < 10 then -120 + QUICKTUNE_MEMS_CALIBRATION b else 0) := by
    intro b
    have h := (runBlocks_zero_inv QUICKTUNE_ENABLE_ITERATION
      QUICKTUNE_MAX_ITERATIONS 4500 (le_refl _)).1 b
    rw [← hs45] at h
    simpa using h
  have hiter : s45.iteration = 0 :=
    (runBlocks_inv QUICKTUNE_ENABLE_ITERATION QUICKTUNE_MAX_ITERATIONS zeroMic
      4500 (le_refl _)).1
  have hb10 : band < 10 := by simpa [QUICKTUNE_NUM_BANDS] using hb
  have hclamp : clampGainDb (-(s45.measured_levels band)) = 12 := by
    rw [hmeas band, if_pos hb10]
    apply clampGainDb_big
    have := (QUICKTUNE_MEMS_CALIBRATION_bounds band).2
    linarith
  rw [runBlocks_zero_4501, ← hs45]
  refine ⟨?_, ?_, ?_⟩
  · rw [(ComputeCorrectionGains_state s45).2.2, hmeas band, if_pos hb10]
  · rw [(ComputeCorrectionGains_gains s45 band hb).1, hclamp]
  · rw [(ComputeCorrectionGains_gains s45 band hb).2, if_pos hiter, hclamp]

/-- Witness for C5's amended theorem at band 0. -/
theorem QuickTune_zero_mic_gains_witness :
    (runBlocks QUICKTUNE_ENABLE_ITERATION QUICKTUNE_MAX_ITERATIONS zeroMic 4501
        startedState).correction_gains 0 = 12 :=
  (QuickTune_zero_mic_gains 0 (by norm_num [QUICKTUNE_NUM_BANDS])).2.1
